import Mathlib

/-
Verification of the EvolveED.ai AI-service pipeline (backend/notes, backend/quizzes,
backend/roadmaps) against its natural-language specification.

The Python sources are shallowly embedded: each Python function becomes an executable
Lean definition operating on `String`/`List`/`Nat`, exceptions become `Except PyExn`,
and the HTTP transport is abstracted as an environment `Nat → PostResult` giving the
outcome of the `requests.post` call on each 0-indexed attempt.

Python string primitives (`str.lower`, `str.strip`, `str.split`, `in`, slicing) are
re-implemented structurally over `String.data` so that every definition reduces inside
the kernel (`decide` / `rfl` on concrete inputs).
-/

/-! ## Python string primitives -/

/-- Python `str.lower()` (ASCII case folding, which is all the sources use). -/
def pyLower (s : String) : String := ⟨s.data.map Char.toLower⟩

/-- Python whitespace class `\s` / characters stripped by `str.strip()`:
space, tab, newline, carriage return, vertical tab, form feed. -/
def pySpace (c : Char) : Bool :=
  c = ' ' ∨ c = '\t' ∨ c = '\n' ∨ c = '\r' ∨ c = '\x0b' ∨ c = '\x0c'

/-- Python `str.strip()` with no argument. -/
def pyStrip (s : String) : String :=
  ⟨((s.data.dropWhile pySpace).reverse.dropWhile pySpace).reverse⟩

def splitChAux (c : Char) : List Char → List Char → List (List Char)
  | [], acc => [acc.reverse]
  | x :: xs, acc => if x = c then acc.reverse :: splitChAux c xs [] else splitChAux c xs (x :: acc)

/-- Python `str.split(c)` for a single-character separator
(`"".split(c) == [""]`, separators at the ends produce empty-string entries). -/
def pySplit (s : String) (c : Char) : List String := (splitChAux c s.data []).map String.mk

def containsSub : List Char → List Char → Bool
  | [], needle => needle.isEmpty
  | h :: t, needle => needle.isPrefixOf (h :: t) || containsSub t needle

/-- Python `needle in hay` on strings (substring test; the empty needle is in everything). -/
def strContains (hay needle : String) : Bool := containsSub hay.data needle.data

/-- Python `sep.join(items)`. -/
def joinWith (sep : String) : List String → String
  | [] => ""
  | [x] => x
  | x :: y :: xs => x ++ sep ++ joinWith sep (y :: xs)

/-- Python slicing `s[:n]`. -/
def pyTake (s : String) (n : Nat) : String := ⟨s.data.take n⟩

/-- Python slicing `s[n:]`. -/
def pyDrop (s : String) (n : Nat) : String := ⟨s.data.drop n⟩

/-- Python `s.startswith(p)`. -/
def pyStartsWith (s p : String) : Bool := p.data.isPrefixOf s.data

/-- Python `s.endswith(c)` for a single character. -/
def pyEndsWith (s : String) (c : Char) : Bool := s.data.reverse.head? = some c

/-! ## Exceptions and the HTTP transport environment -/

/-- The Python exceptions that the modelled code can raise or propagate. -/
inductive PyExn
  /-- `KeyError` from `parse_qs(query)['v']` when no `v` parameter is present. -/
  | keyError
  /-- `ValueError("Invalid YouTube URL")`. -/
  | valueError
  /-- A network/transport exception raised by `requests.post`. -/
  | netExn
  /-- `AttributeError` from calling `.get` on a list object. -/
  | attrError
  /-- A generic `Exception(...)` raised with a message. -/
  | generic
deriving DecidableEq, Repr

/-- Parsed JSON body of a 200 response from the inference endpoint: either a list of
objects or a single object, whose `generated_text` field may be absent (`none`). -/
inductive HFBody
  | list (items : List (Option String))
  | obj (generated_text : Option String)
deriving DecidableEq, Repr

/-- Outcome of one `requests.post(...)` call: an HTTP response with a status code and a
parsed body, or a raised network/transport exception. -/
inductive PostResult
  | resp (status : Nat) (body : HFBody)
  | exn (e : PyExn)
deriving DecidableEq, Repr

def exceptDecEq {ε α : Type} [DecidableEq ε] [DecidableEq α] : DecidableEq (Except ε α)
  | .ok a, .ok b =>
    if h : a = b then .isTrue (by rw [h]) else .isFalse (by intro hh; cases hh; exact h rfl)
  | .ok _, .error _ => .isFalse (by intro h; cases h)
  | .error _, .ok _ => .isFalse (by intro h; cases h)
  | .error a, .error b =>
    if h : a = b then .isTrue (by rw [h]) else .isFalse (by intro hh; cases hh; exact h rfl)

instance : DecidableEq (Except PyExn (Option String)) := exceptDecEq

/-- Observable outcome of `call_huggingface_api`: the returned value (`.ok none` is the
Python `None` failure sentinel, `.error e` a propagated exception), the number of
attempts performed, and the list of `time.sleep` durations in order. -/
structure ApiOutcome where
  result : Except PyExn (Option String)
  attempts : Nat
  sleeps : List Nat
deriving DecidableEq, Repr

/-! ## Inference client (notes/ai_service.py lines 49-93; duplicated verbatim in
quizzes/ai_service.py lines 14-58 apart from the payload) -/

/-- The `for attempt in range(max_retries)` loop body of `call_huggingface_api`.
`attempt` is the 0-indexed Python loop variable; `remaining` is the number of loop
iterations left AFTER the current one (so the current attempt is the last one exactly
when `remaining = 0`, matching Python's `attempt == max_retries - 1`). -/
def callHFLoop (env : Nat → PostResult) (delay : Nat) : Nat → Nat → ApiOutcome
  | _, 0 => { result := .ok none, attempts := 0, sleeps := [] }
  | attempt, remaining + 1 =>
    match env attempt with
    | .resp status body =>
      if status = 503 then
        -- model is loading: time.sleep(delay * (attempt + 1)); continue
        let r := callHFLoop env delay (attempt + 1) remaining
        { result := r.result, attempts := r.attempts + 1,
          sleeps := delay * (attempt + 1) :: r.sleeps }
      else if status = 200 then
        match body with
        | .list [] =>
          -- `isinstance(result, list) and len(result) > 0` is False, so the code falls
          -- through to `result.get(...)` on a list object: AttributeError, caught by
          -- the `except` clause (re-raised on the last attempt, else sleep and retry).
          if remaining = 0 then { result := .error .attrError, attempts := 1, sleeps := [] }
          else
            let r := callHFLoop env delay (attempt + 1) remaining
            { result := r.result, attempts := r.attempts + 1, sleeps := delay :: r.sleeps }
        | .list (item :: _) =>
          { result := .ok (some (item.getD "")), attempts := 1, sleeps := [] }
        | .obj gt =>
          { result := .ok (some (gt.getD "")), attempts := 1, sleeps := [] }
      else
        -- any other status: print and break; after the loop the function returns None
        { result := .ok none, attempts := 1, sleeps := [] }
    | .exn e =>
      -- except clause: `if attempt == max_retries - 1: raise e` else sleep(delay)
      if remaining = 0 then { result := .error e, attempts := 1, sleeps := [] }
      else
        let r := callHFLoop env delay (attempt + 1) remaining
        { result := r.result, attempts := r.attempts + 1, sleeps := delay :: r.sleeps }

/-- `NotesAIService.call_huggingface_api(prompt, max_retries=3, delay=1)`.
The prompt only influences the endpoint's behaviour, which is abstracted by `env`. -/
def call_huggingface_api (env : Nat → PostResult) (max_retries delay : Nat) : ApiOutcome :=
  callHFLoop env delay 0 max_retries

/-! ## Claims C1, C4, C5: retry behaviour of the inference client -/

theorem callHFLoop_all503 (env : Nat → PostResult) (delay : Nat)
    (h : ∀ k, ∃ b, env k = .resp 503 b) :
    ∀ (m a : Nat), callHFLoop env delay a m =
      { result := .ok none, attempts := m,
        sleeps := (List.range m).map fun k => delay * (a + k + 1) } := by
  intro m
  induction m with
  | zero => intro a; simp [callHFLoop]
  | succ n ih =>
    intro a
    obtain ⟨b, hb⟩ := h a
    rw [callHFLoop, hb]
    simp only [ih (a + 1), List.range_succ_eq_map, List.map_cons, List.map_map]
    simp only [reduceIte, ApiOutcome.mk.injEq, true_and]
    congr 1
    refine List.map_congr_left fun k _ => ?_
    simp only [Function.comp_apply, Nat.succ_eq_add_one]
    ring

/-- Claim C1: if every HTTP attempt returns status 503, `call_huggingface_api` performs
exactly `max_retries` attempts, the sleep following the k-th attempt (k counted from 1)
lasts `delay * k`, and the call returns the failure sentinel `None` without raising. -/
theorem C1_client_503_exhausts_retries (env : Nat → PostResult) (max_retries delay : Nat)
    (h : ∀ k, ∃ b, env k = .resp 503 b) :
    call_huggingface_api env max_retries delay =
      { result := .ok none, attempts := max_retries,
        sleeps := (List.range max_retries).map fun k => delay * (k + 1) } := by
  rw [call_huggingface_api, callHFLoop_all503 env delay h max_retries 0]
  simp

theorem C1_client_503_exhausts_retries_witness :
    (∀ k : Nat, ∃ b, (fun _ : Nat => PostResult.resp 503 (.obj none)) k = .resp 503 b) ∧
    call_huggingface_api (fun _ => .resp 503 (.obj none)) 3 1 =
      { result := .ok none, attempts := 3, sleeps := [1, 2, 3] } := by
  refine ⟨fun k => ⟨.obj none, rfl⟩, ?_⟩
  rw [C1_client_503_exhausts_retries (fun _ => .resp 503 (.obj none)) 3 1
    (fun k => ⟨.obj none, rfl⟩)]
  decide

theorem callHFLoop_allExn (env : Nat → PostResult) (f : Nat → PyExn) (delay : Nat)
    (h : ∀ k, env k = .exn (f k)) :
    ∀ (m a : Nat), callHFLoop env delay a (m + 1) =
      { result := .error (f (a + m)), attempts := m + 1,
        sleeps := List.replicate m delay } := by
  intro m
  induction m with
  | zero => intro a; rw [callHFLoop, h a]; simp
  | succ n ih =>
    intro a
    rw [callHFLoop, h a]
    simp only [Nat.succ_ne_zero, if_false, ih (a + 1), List.replicate_succ]
    have e : a + 1 + n = a + (n + 1) := by omega
    rw [e]

/-- Claim C4: if a network/transport exception is thrown on every attempt, the client
sleeps the fixed `delay` after each attempt that is not the last (so `max_retries - 1`
sleeps of exactly `delay`) and retries; the exception of the last attempt (attempt
number `max_retries`) is re-raised to the caller instead of the failure sentinel. -/
theorem C4_client_exception_reraised_on_last_attempt (env : Nat → PostResult)
    (f : Nat → PyExn) (max_retries delay : Nat)
    (h : ∀ k, env k = .exn (f k)) (hm : 1 ≤ max_retries) :
    call_huggingface_api env max_retries delay =
      { result := .error (f (max_retries - 1)), attempts := max_retries,
        sleeps := List.replicate (max_retries - 1) delay } := by
  obtain ⟨m, rfl⟩ : ∃ m, max_retries = m + 1 := ⟨max_retries - 1, by omega⟩
  rw [call_huggingface_api, callHFLoop_allExn env f delay h m 0]
  simp

theorem C4_client_exception_reraised_on_last_attempt_witness :
    (∀ k : Nat, (fun _ : Nat => PostResult.exn .netExn) k = .exn ((fun _ => PyExn.netExn) k)) ∧
    1 ≤ 3 ∧
    call_huggingface_api (fun _ => .exn .netExn) 3 1 =
      { result := .error .netExn, attempts := 3, sleeps := [1, 1] } := by
  refine ⟨fun _ => rfl, by decide, ?_⟩
  rw [C4_client_exception_reraised_on_last_attempt (fun _ => .exn .netExn)
    (fun _ => .netExn) 3 1 (fun _ => rfl) (by decide)]
  decide

/-- Claim C5: if the first HTTP attempt returns a status code that is neither 200 nor
503, `call_huggingface_api` returns the failure sentinel `None` after exactly one
attempt, with no sleep and no further retries. -/
theorem C5_client_other_status_aborts (env : Nat → PostResult) (max_retries delay s : Nat)
    (b : HFBody) (hm : 1 ≤ max_retries) (h0 : env 0 = .resp s b)
    (h200 : s ≠ 200) (h503 : s ≠ 503) :
    call_huggingface_api env max_retries delay =
      { result := .ok none, attempts := 1, sleeps := [] } := by
  obtain ⟨m, rfl⟩ : ∃ m, max_retries = m + 1 := ⟨max_retries - 1, by omega⟩
  rw [call_huggingface_api, callHFLoop, h0]
  simp [h200, h503]

theorem C5_client_other_status_aborts_witness :
    (1 : Nat) ≤ 3 ∧ (fun _ : Nat => PostResult.resp 404 (.obj none)) 0 = .resp 404 (.obj none) ∧
    call_huggingface_api (fun _ => .resp 404 (.obj none)) 3 1 =
      { result := .ok none, attempts := 1, sleeps := [] } := by
  refine ⟨by decide, rfl, ?_⟩
  exact C5_client_other_status_aborts (fun _ => .resp 404 (.obj none)) 3 1 404 (.obj none)
    (by decide) rfl (by decide) (by decide)

/-! ## Notes module (notes/ai_service.py) -/

/-- The `StructuredOutput` dict returned by `parse_ai_response` / `create_fallback_notes`. -/
structure Notes where
  summary : String
  content : String
  key_points : List String
  questions : List String
  difficulty_level : String
  estimated_read_time : Nat
  tags : List String
deriving DecidableEq, Repr

/-- Inner scan of `NotesAIService.extract_section` for one keyword: find the first line
that contains the keyword and is non-blank, then collect the non-empty stripped lines
among the next up-to-4 lines (Python `range(i + 1, min(i + 5, len(lines)))`); if any
were collected, return the first 3 joined by spaces, else keep scanning. -/
def scanKw (kw : String) : List String → Option String
  | [] => none
  | line :: rest =>
    if strContains (pyLower line) kw ∧ (pyStrip line).length > 0 then
      let sect := (rest.take 4).filterMap fun l =>
        if pyStrip l ≠ "" then some (pyStrip l) else none
      if sect ≠ [] then some (joinWith " " (sect.take 3)) else scanKw kw rest
    else scanKw kw rest

/-- `NotesAIService.extract_section(text, keywords, min_sentences)`. -/
def extract_section (text : String) (keywords : List String) (min_sentences : Nat) : String :=
  let lines := pySplit text '\n'
  match keywords.findSome? (fun kw => scanKw kw lines) with
  | some s => s
  | none => pyStrip (joinWith ". " ((pySplit text '.').take (min_sentences + 1)))

/-- The regex test `re.match(r'^\d+\.', line)`: one or more leading digits then a dot. -/
def startsNumDot (s : String) : Bool :=
  let ds := s.data.takeWhile Char.isDigit
  !ds.isEmpty &&
    match s.data.drop ds.length with
    | '.' :: _ => true
    | _ => false

/-- One line starts with a recognized bullet marker (the test in `extract_bullet_points`:
`line.startswith('•'/'-'/'*')` or `re.match(r'^\d+\.', line)`). -/
def isBulletLine (s : String) : Bool :=
  pyStartsWith s "•" || pyStartsWith s "-" || pyStartsWith s "*" || startsNumDot s

/-- `re.sub(r'^[•\-*\d\.]\s*', '', line)`: remove ONE leading character of the class
(so `"12. x"` keeps its second digit) and the whitespace run after it. -/
def stripBulletMarker (s : String) : String :=
  match s.data with
  | [] => s
  | c :: rest =>
    if c = '•' ∨ c = '-' ∨ c = '*' ∨ c.isDigit ∨ c = '.' then ⟨rest.dropWhile pySpace⟩
    else s

/-- `NotesAIService.extract_bullet_points(text)`. -/
def extract_bullet_points (text : String) : List String :=
  let lines := pySplit text '\n'
  let points := lines.filterMap fun raw =>
    let line := pyStrip raw
    if isBulletLine line then
      let clean := stripBulletMarker line
      if clean ≠ "" ∧ clean.length > 10 then some clean else none
    else none
  let pts :=
    if points = [] then
      -- if no bullet points found, extract key sentences
      ((pySplit text '.').take 5).filterMap fun s =>
        if (pyStrip s).length > 20 then some (pyStrip s) else none
    else points
  pts.take 8

/-- `NotesAIService.extract_questions(text)`. -/
def extract_questions (text : String) : List String :=
  let lines := pySplit text '\n'
  let qs := lines.filterMap fun raw =>
    let line := pyStrip raw
    if pyEndsWith line '?' ∧ line.length > 10 then some line else none
  let qs' :=
    if qs = [] then
      ["What are the main topics covered in this content?",
       "How can this knowledge be practically applied?",
       "What are the key concepts to remember?",
       "What questions remain unanswered?"]
    else qs
  qs'.take 10

/-- `NotesAIService.extract_difficulty(text)`. -/
def extract_difficulty (text : String) : String :=
  let tl := pyLower text
  if ["advanced", "complex", "difficult", "expert"].any (fun w => strContains tl w) then
    "Advanced"
  else if ["intermediate", "moderate", "medium"].any (fun w => strContains tl w) then
    "Intermediate"
  else "Beginner"

def common_academic_terms : List String :=
  ["science", "mathematics", "history", "literature", "technology",
   "business", "economics", "psychology", "medicine", "engineering",
   "art", "philosophy", "education", "research", "analysis"]

/-- The term loop in `generate_tags`: append each term occurring in the lowered text,
breaking as soon as the tag list reaches 6 entries. -/
def addTags : List String → String → List String → List String
  | [], _, tags => tags
  | t :: rest, tl, tags =>
    if strContains tl t then
      let tags2 := tags ++ [t]
      if tags2.length ≥ 6 then tags2 else addTags rest tl tags2
    else addTags rest tl tags

/-- `NotesAIService.generate_tags(text, source_type)`. -/
def generate_tags (text source_type : String) : List String :=
  addTags common_academic_terms (pyLower text) [source_type, "study", "notes"]

/-- `NotesAIService.parse_ai_response(ai_response, original_text, title, source_type)`.
The Python body is wrapped in try/except falling back to `create_fallback_notes`, but
none of the operations it performs can raise, so the happy path is total. -/
def parse_ai_response (ai_response original_text title source_type : String) : Notes :=
  { summary := extract_section ai_response ["summary", "overview"] 2
    content := "Detailed Notes for " ++ title ++ ":\n\n" ++ ai_response
    key_points := extract_bullet_points ai_response
    questions := extract_questions ai_response
    difficulty_level := extract_difficulty ai_response
    estimated_read_time := max 1 (original_text.length / 250)
    tags := generate_tags original_text source_type }

/-- `NotesAIService.create_fallback_notes(text, title, source_type)`. -/
def create_fallback_notes (text title source_type : String) : Notes :=
  { summary := "Summary of " ++ title ++ ": This content covers important topics that require further study. The material appears to contain valuable information for learning and reference."
    content := "Detailed Notes for " ++ title ++ ":\n\n" ++ pyTake text 2000 ++
      (if text.length > 2000 then "..." else "")
    key_points :=
      ["This content contains important information",
       "Further analysis and study is recommended",
       "Key concepts should be reviewed carefully"]
    questions :=
      ["What are the main topics covered?",
       "How can this knowledge be applied?",
       "What are the key takeaways?",
       "What additional research might be helpful?"]
    difficulty_level := "Intermediate"
    estimated_read_time := max 1 (text.length / 250)
    tags := ["study", "notes", source_type] }

/-- The try-block of `NotesAIService.generate_notes_from_text`: build the prompt (which
only influences `env`), call the client (whose exception propagates inside the block),
parse a truthy response, and `raise Exception(...)` on a falsy one. -/
def notesBody (env : Nat → PostResult) (text title source_type : String) :
    Except PyExn Notes :=
  match (call_huggingface_api env 3 1).result with
  | .error e => .error e
  | .ok none => .error .generic
  | .ok (some s) =>
    if s ≠ "" then .ok (parse_ai_response s text title source_type)
    else .error .generic

/-- `NotesAIService.generate_notes_from_text(text, title, source_type)`: the whole body
is wrapped in `try/except Exception`, and the handler returns the fallback notes. -/
def generate_notes_from_text (env : Nat → PostResult) (text title source_type : String) :
    Notes :=
  match notesBody env text title source_type with
  | .ok n => n
  | .error _ => create_fallback_notes text title source_type

/-- An endpoint environment on which every attempt raises a network exception. -/
def envExn : Nat → PostResult := fun _ => .exn .netExn

/-! ## Claim C2: failure modes of the notes pipeline -/

/-- Claim C2 counterexample: when the inference client raises a network exception on its
final retry attempt, that exception escapes `call_huggingface_api` — but it is caught by
the `try/except` inside `generate_notes_from_text`, which returns the fallback notes to
the caller rather than propagating the exception. -/
theorem C2_counterexample :
    (call_huggingface_api envExn 3 1).result = .error .netExn ∧
    generate_notes_from_text envExn "sample text" "Title" "text" =
      create_fallback_notes "sample text" "Title" "text" := by
  constructor <;> rfl

/-- Claim C2 (amended): the end user always receives a structured result (the parsed
output or the deterministic fallback) in EVERY failure mode, with no exception path: in
particular, when the inference client raises a network exception on its final retry
attempt, that exception is caught by `generate_notes_from_text`'s own `except` handler
and the fallback output is returned instead of the exception propagating. -/
theorem C2_pipeline_degrades_on_client_exception
    (env : Nat → PostResult) (text title source_type : String) :
    (∀ e : PyExn, (call_huggingface_api env 3 1).result = .error e →
      generate_notes_from_text env text title source_type =
        create_fallback_notes text title source_type) ∧
    (generate_notes_from_text env text title source_type =
        create_fallback_notes text title source_type ∨
      ∃ s, (call_huggingface_api env 3 1).result = .ok (some s) ∧ s ≠ "" ∧
        generate_notes_from_text env text title source_type =
          parse_ai_response s text title source_type) := by
  constructor
  · intro e h
    unfold generate_notes_from_text notesBody
    rw [h]
  · cases hres : (call_huggingface_api env 3 1).result with
    | error e =>
      left
      unfold generate_notes_from_text notesBody
      rw [hres]
    | ok os =>
      cases os with
      | none =>
        left
        unfold generate_notes_from_text notesBody
        rw [hres]
      | some s =>
        by_cases hs : s = ""
        · left
          unfold generate_notes_from_text notesBody
          rw [hres]
          simp [hs]
        · refine Or.inr ⟨s, rfl, hs, ?_⟩
          unfold generate_notes_from_text notesBody
          rw [hres]
          simp [hs]

theorem C2_pipeline_degrades_on_client_exception_witness :
    (call_huggingface_api envExn 3 1).result = .error .netExn ∧
    generate_notes_from_text envExn "abc" "T" "text" = create_fallback_notes "abc" "T" "text" :=
  ⟨rfl, (C2_pipeline_degrades_on_client_exception envExn "abc" "T" "text").1 .netExn rfl⟩

/-! ## Claim C3: well-formedness of the notes StructuredOutput -/

/-- Every required field of a `Notes` record is present and non-empty
(`estimated_read_time`, a number, is read as "non-empty" when it is positive). -/
def wellFormedNotes (n : Notes) : Prop :=
  n.summary ≠ "" ∧ n.content ≠ "" ∧ n.key_points ≠ [] ∧ n.questions ≠ [] ∧
    n.difficulty_level ≠ "" ∧ 1 ≤ n.estimated_read_time ∧ n.tags ≠ []

instance (n : Notes) : Decidable (wellFormedNotes n) := by
  unfold wellFormedNotes; infer_instance

/-- Claim C3 counterexample: for the truthy but whitespace-only AI response consisting of
a single newline, `parse_ai_response` produces an empty `summary` (and an empty
`key_points` list), so not every required field is non-empty. -/
theorem C3_counterexample :
    ¬ wellFormedNotes (parse_ai_response "\n" "x" "T" "text") := by
  decide

theorem str_append_ne_empty (a b : String) (ha : a.length ≠ 0) : a ++ b ≠ "" := by
  intro h
  have hl := congrArg String.length h
  rw [String.length_append] at hl
  simp at hl
  omega

theorem take_ne_nil_of_ne_nil {α : Type} (l : List α) (n : Nat) (hl : l ≠ []) (hn : n ≠ 0) :
    l.take n ≠ [] := by
  cases l with
  | nil => exact absurd rfl hl
  | cons x xs =>
    cases n with
    | zero => exact absurd rfl hn
    | succ m => simp [List.take]

theorem extract_questions_ne_nil (text : String) : extract_questions text ≠ [] := by
  simp only [extract_questions]
  split
  · decide
  · next h => exact take_ne_nil_of_ne_nil _ 10 h (by decide)

theorem extract_difficulty_ne_empty (text : String) : extract_difficulty text ≠ "" := by
  simp only [extract_difficulty]
  split
  · decide
  · split <;> decide

theorem addTags_ne_nil (terms : List String) (tl : String) (tags : List String)
    (h : tags ≠ []) : addTags terms tl tags ≠ [] := by
  induction terms generalizing tags with
  | nil => simpa [addTags] using h
  | cons t rest ih =>
    simp only [addTags]
    split
    · split
      · simp
      · exact ih (tags ++ [t]) (by simp)
    · exact ih tags h

theorem generate_tags_ne_nil (text source_type : String) :
    generate_tags text source_type ≠ [] := by
  unfold generate_tags
  exact addTags_ne_nil _ _ _ (by simp)

/-- Claim C3 (amended): the fallback notes always have every required field present and
non-empty; `parse_ai_response` always produces non-empty `content`, `questions`,
`difficulty_level`, `estimated_read_time` and `tags`, but its `summary` and `key_points`
can be empty when the AI response contains no extractable sentence or qualifying bullet
(for example a whitespace-only response). -/
theorem C3_fields_populated :
    (∀ text title source_type : String,
      wellFormedNotes (create_fallback_notes text title source_type)) ∧
    (∀ ai_response original_text title source_type : String,
      (parse_ai_response ai_response original_text title source_type).content ≠ "" ∧
      (parse_ai_response ai_response original_text title source_type).questions ≠ [] ∧
      (parse_ai_response ai_response original_text title source_type).difficulty_level ≠ "" ∧
      1 ≤ (parse_ai_response ai_response original_text title source_type).estimated_read_time ∧
      (parse_ai_response ai_response original_text title source_type).tags ≠ []) := by
  constructor
  · intro text title source_type
    refine ⟨?_, ?_, by simp [create_fallback_notes], by simp [create_fallback_notes],
      by simp [create_fallback_notes], ?_, by simp [create_fallback_notes]⟩
    · show "Summary of " ++ title ++ _ ≠ ""
      apply str_append_ne_empty
      rw [String.length_append]
      have : "Summary of ".length = 11 := by decide
      omega
    · show "Detailed Notes for " ++ title ++ ":\n\n" ++ _ ++ _ ≠ ""
      apply str_append_ne_empty
      rw [String.length_append, String.length_append, String.length_append]
      have : "Detailed Notes for ".length = 19 := by decide
      omega
    · exact Nat.le_max_left 1 _
  · intro ai_response original_text title source_type
    refine ⟨?_, extract_questions_ne_nil ai_response,
      extract_difficulty_ne_empty ai_response, Nat.le_max_left 1 _,
      generate_tags_ne_nil original_text source_type⟩
    show "Detailed Notes for " ++ title ++ ":\n\n" ++ ai_response ≠ ""
    apply str_append_ne_empty
    rw [String.length_append, String.length_append]
    have : "Detailed Notes for ".length = 19 := by decide
    omega

/-! ## Claim C6: caps of the list extractors -/

theorem str_ne_empty_of_length_pos (s : String) (h : 0 < s.length) : s ≠ "" := by
  intro he
  rw [he] at h
  exact absurd h (by decide)

theorem extract_bullet_points_le_8 (text : String) :
    (extract_bullet_points text).length ≤ 8 := by
  simp only [extract_bullet_points]
  rw [List.length_take]
  exact Nat.min_le_left _ _

theorem extract_questions_le_10 (text : String) :
    (extract_questions text).length ≤ 10 := by
  simp only [extract_questions]
  rw [List.length_take]
  exact Nat.min_le_left _ _

/-- Claim C6 counterexample: `"- hi"` consists of one line that begins with the bullet
marker `-`, yet `extract_bullet_points` returns no items: the stripped content `"hi"`
fails the `len(clean_point) > 10` filter, and the sentence fallback also finds nothing
longer than 20 characters. -/
theorem C6_counterexample :
    isBulletLine (pyStrip "- hi") = true ∧ extract_bullet_points "- hi" = [] := by
  constructor <;> decide

/-- Claim C6 (amended): for every raw text containing at least one line that begins with
a recognized bullet marker AND whose content after stripping the marker is longer than
10 characters, `extract_bullet_points` returns at least one and at most 8 items; for
every raw text it returns at most 8 items, and `extract_questions` at most 10. -/
theorem C6_list_extraction_caps (text : String)
    (h : ∃ l ∈ pySplit text '\n', isBulletLine (pyStrip l) = true ∧
      10 < (stripBulletMarker (pyStrip l)).length) :
    extract_bullet_points text ≠ [] ∧ (extract_bullet_points text).length ≤ 8 ∧
      ∀ t : String, (extract_questions t).length ≤ 10 := by
  obtain ⟨l, hm, hb, hlen⟩ := h
  have hcl : stripBulletMarker (pyStrip l) ≠ "" := str_ne_empty_of_length_pos _ (by omega)
  refine ⟨?_, extract_bullet_points_le_8 text, fun t => extract_questions_le_10 t⟩
  simp only [extract_bullet_points]
  split
  · next hnil =>
    exfalso
    rw [List.filterMap_eq_nil_iff] at hnil
    have hfl := hnil l hm
    simp only [hb, if_true, hlen] at hfl
    simp [hcl] at hfl
  · next hne =>
    exact take_ne_nil_of_ne_nil _ 8 hne (by decide)

theorem C6_list_extraction_caps_witness :
    (∃ l ∈ pySplit "- This is a sufficiently long point" '\n',
      isBulletLine (pyStrip l) = true ∧ 10 < (stripBulletMarker (pyStrip l)).length) ∧
    extract_bullet_points "- This is a sufficiently long point" ≠ [] ∧
    (extract_bullet_points "- This is a sufficiently long point").length ≤ 8 ∧
    ∀ t : String, (extract_questions t).length ≤ 10 := by
  have h : ∃ l ∈ pySplit "- This is a sufficiently long point" '\n',
      isBulletLine (pyStrip l) = true ∧ 10 < (stripBulletMarker (pyStrip l)).length := by
    refine ⟨"- This is a sufficiently long point", by decide, by decide, by decide⟩
  exact ⟨h, C6_list_extraction_caps "- This is a sufficiently long point" h⟩

/-! ## Claim C9: YouTube URL handling (notes/ai_service.py lines 14-27 and 278-291) -/

/-- The components of `urllib.parse.urlparse(url)` that
`extract_youtube_video_id` inspects: `hostname` (lowercased by `urlparse`), `path`, and
the query string already split into key/value parameters in order. -/
structure ParsedUrl where
  hostname : String
  path : String
  query : List (String × String)
deriving DecidableEq, Repr

/-- `parse_qs(query)['v'][0]`: `parse_qs` drops blank values by default and `['v']`
raises `KeyError` when no `v` parameter with a non-blank value is present; `[0]` takes
the first occurrence. -/
def parse_qs_v (query : List (String × String)) : Except PyExn String :=
  match (query.filter fun p => p.2 ≠ "").find? (fun p => p.1 = "v") with
  | some p => .ok p.2
  | none => .error .keyError

/-- `NotesAIService.extract_youtube_video_id(url)`. A path that starts with `/embed/`
or `/v/` always splits on `/` into at least 3 components, so the Python index `[2]`
cannot fail there; `getD` with default `""` is therefore exact. -/
def extract_youtube_video_id (u : ParsedUrl) : Except PyExn (Option String) :=
  if u.hostname = "youtu.be" then .ok (some (pyDrop u.path 1))
  else if u.hostname = "www.youtube.com" ∨ u.hostname = "youtube.com" then
    if u.path = "/watch" then
      match parse_qs_v u.query with
      | .ok v => .ok (some v)
      | .error e => .error e
    else if pyTake u.path 7 = "/embed/" then .ok (some ((pySplit u.path '/').getD 2 ""))
    else if pyTake u.path 3 = "/v/" then .ok (some ((pySplit u.path '/').getD 2 ""))
    else .ok none
  else .ok none

/-- `NotesAIService.get_youtube_transcript(video_id)` (mock implementation). -/
def get_youtube_transcript (video_id : String) : String :=
  "Mock transcript for video " ++ video_id ++
    ". This would contain the actual video content in a real implementation."

/-- `NotesAIService.process_youtube_url(url, title="")`. -/
def process_youtube_url (env : Nat → PostResult) (u : ParsedUrl) (title : String) :
    Except PyExn Notes :=
  match extract_youtube_video_id u with
  | .error e => .error e
  | .ok vid =>
    match vid with
    | none => .error .valueError
    | some v =>
      if v = "" then .error .valueError
      else
        let transcript := get_youtube_transcript v
        let title' := if title = "" then "YouTube Video Notes - " ++ v else title
        .ok (generate_notes_from_text env transcript title' "YouTube video")

/-- Claim C9 counterexample: for the URL `https://www.youtube.com/watch` (recognized
host, path `/watch`, but no `v` query parameter), `extract_youtube_video_id` does not
return `None`: `parse_qs(parsed_url.query)['v']` raises `KeyError`, which propagates
out of `process_youtube_url` instead of the claimed `ValueError`. -/
theorem C9_counterexample :
    extract_youtube_video_id ⟨"www.youtube.com", "/watch", []⟩ = .error .keyError ∧
    process_youtube_url envExn ⟨"www.youtube.com", "/watch", []⟩ "" = .error .keyError := by
  constructor <;> rfl

/-- Claim C9 (amended): for every URL whose host is none of youtu.be, youtube.com,
www.youtube.com, or whose host is youtube.com/www.youtube.com with a path that is not
`/watch`, does not start with `/embed/` and does not start with `/v/`,
`extract_youtube_video_id` returns `None` and `process_youtube_url` raises
`ValueError` — except that a `/watch` path without a `v` query parameter raises
`KeyError` instead (see the counterexample). -/
theorem C9_unrecognized_url_raises_valueError (env : Nat → PostResult) (u : ParsedUrl)
    (title : String)
    (h : (u.hostname ≠ "youtu.be" ∧ u.hostname ≠ "www.youtube.com" ∧
            u.hostname ≠ "youtube.com") ∨
         ((u.hostname = "www.youtube.com" ∨ u.hostname = "youtube.com") ∧
            u.path ≠ "/watch" ∧ pyTake u.path 7 ≠ "/embed/" ∧ pyTake u.path 3 ≠ "/v/")) :
    extract_youtube_video_id u = .ok none ∧
    process_youtube_url env u title = .error .valueError := by
  have hid : extract_youtube_video_id u = .ok none := by
    unfold extract_youtube_video_id
    rcases h with ⟨h1, h2, h3⟩ | ⟨hh, hp, he, hv⟩
    · rw [if_neg h1, if_neg (by simp [h2, h3])]
    · have h1 : u.hostname ≠ "youtu.be" := by
        rcases hh with hh | hh <;> simp [hh]
      rw [if_neg h1, if_pos hh, if_neg hp, if_neg he, if_neg hv]
  refine ⟨hid, ?_⟩
  unfold process_youtube_url
  rw [hid]

theorem C9_unrecognized_url_raises_valueError_witness :
    (("example.com" ≠ "youtu.be" ∧ "example.com" ≠ "www.youtube.com" ∧
        "example.com" ≠ "youtube.com") ∨
      (("example.com" = "www.youtube.com" ∨ "example.com" = "youtube.com") ∧
        "/watch" ≠ "/watch" ∧ pyTake "/watch" 7 ≠ "/embed/" ∧
        pyTake "/watch" 3 ≠ "/v/")) ∧
    extract_youtube_video_id ⟨"example.com", "/watch", []⟩ = .ok none ∧
    process_youtube_url envExn ⟨"example.com", "/watch", []⟩ "" = .error .valueError := by
  have h : ("example.com" ≠ "youtu.be" ∧ "example.com" ≠ "www.youtube.com" ∧
      "example.com" ≠ "youtube.com") ∨
      (("example.com" = "www.youtube.com" ∨ "example.com" = "youtube.com") ∧
        "/watch" ≠ "/watch" ∧ pyTake "/watch" 7 ≠ "/embed/" ∧
        pyTake "/watch" 3 ≠ "/v/") := by
    left; refine ⟨by decide, by decide, by decide⟩
  exact ⟨h, C9_unrecognized_url_raises_valueError envExn ⟨"example.com", "/watch", []⟩ "" h⟩

/-! ## Quizzes module (quizzes/ai_service.py) -/

/-- One structured quiz question as built by the quiz service. -/
structure QuizQuestion where
  question_text : String
  question_type : String
  options : List String
  correct_answers : List Nat
  explanation : String
  hint : String
  points : Nat
  difficulty_level : String
deriving DecidableEq, Repr

/-- `QuizAIService._determine_question_type(question_text, question_types)`. -/
def _determine_question_type (question_text : String) (question_types : List String) :
    String :=
  let ql := pyLower question_text
  if question_types.contains "true_false" &&
      (strContains ql "true or false" || strContains ql "is it true" ||
        strContains ql "correct or incorrect") then "true_false"
  else if question_types.contains "short_answer" &&
      (strContains ql "what is" || strContains ql "define" || strContains ql "name") then
    "short_answer"
  else "multiple_choice"

/-- `QuizAIService._generate_mc_options(question_text, topic)`. -/
def _generate_mc_options (topic : String) : List String :=
  ["A) Primary concept of " ++ topic,
   "B) Secondary aspect of " ++ topic,
   "C) Related but different concept",
   "D) Unrelated option"]

/-- The `question_templates` list local to `_generate_fallback_questions`:
(text, type, options) per template. -/
def question_templates (topic : String) : List (String × String × List String) :=
  [("What is the main principle behind " ++ topic ++ "?", "multiple_choice",
    ["A) Core concept of " ++ topic, "B) Basic principle of " ++ topic,
     "C) Advanced theory of " ++ topic, "D) Unrelated concept"]),
   ("Which statement about " ++ topic ++ " is correct?", "multiple_choice",
    ["A) " ++ topic ++ " involves specific processes", "B) " ++ topic ++ " is completely theoretical",
     "C) " ++ topic ++ " has no practical applications", "D) " ++ topic ++ " is outdated"]),
   (topic ++ " is essential for understanding the subject.", "true_false",
    ["True", "False"])]

/-- `QuizAIService._generate_fallback_questions(topic, question_count, difficulty)`:
`for i in range(min(question_count, len(question_templates)))` over the 3 templates. -/
def _generate_fallback_questions (topic : String) (question_count : Nat)
    (difficulty : String) : List QuizQuestion :=
  (List.range (min question_count 3)).map fun i =>
    let t := (question_templates topic).getD (i % 3) ("", "", [])
    { question_text := t.1
      question_type := t.2.1
      options := t.2.2
      correct_answers := [0]
      explanation := "This question tests understanding of " ++ topic ++ " concepts."
      hint := "Think about the fundamental principles of " ++ topic ++ "."
      points := 1
      difficulty_level := difficulty }

/-- The line loop of `_parse_questions_from_response`: walks the stripped lines carrying
(`questions_data`, `current_question`, `question_num`); returns the accumulated list and
the pending `current_question` when the lines are exhausted or the
`question_num > question_count` break fires. -/
def parseScan (topic difficulty : String) (question_count : Nat)
    (question_types : List String) :
    List String → List QuizQuestion → Option QuizQuestion → Nat →
      List QuizQuestion × Option QuizQuestion
  | [], acc, cur, _ => (acc, cur)
  | raw :: rest, acc, cur, qnum =>
    let line := pyStrip raw
    if line = "" then parseScan topic difficulty question_count question_types rest acc cur qnum
    else if (pyEndsWith line '?' || strContains (pyLower line) "question") &&
        decide (line.length > 20) then
      let acc2 := match cur with
        | some q => if qnum < question_count then acc ++ [q] else acc
        | none => acc
      if qnum + 1 > question_count then (acc2, cur)
      else
        let q_type := _determine_question_type line question_types
        let baseQ : QuizQuestion :=
          { question_text := line
            question_type := q_type
            options := []
            correct_answers := [0]
            explanation := "This question tests understanding of " ++ topic ++ "."
            hint := "Consider the key concepts of " ++ topic ++ "."
            points := 1
            difficulty_level := difficulty }
        let newQ :=
          if q_type = "multiple_choice" then { baseQ with options := _generate_mc_options topic }
          else if q_type = "true_false" then
            { baseQ with
                options := ["True", "False"]
                correct_answers := [if strContains (pyLower line) "true" then 0 else 1] }
          else baseQ
        parseScan topic difficulty question_count question_types rest acc2 (some newQ) (qnum + 1)
    else parseScan topic difficulty question_count question_types rest acc cur qnum

/-- The `while len(questions_data) < question_count` padding loop: each iteration
appends `_generate_fallback_questions(topic, 1, difficulty)` (exactly one question), so
the Python loop performs at most `question_count` iterations; `fuel` starts at
`question_count`, which is enough for the recursion to reach the loop's exit condition. -/
def fillQuestions (topic difficulty : String) (question_count : Nat) :
    Nat → List QuizQuestion → List QuizQuestion
  | 0, qs => qs
  | fuel + 1, qs =>
    if qs.length < question_count then
      fillQuestions topic difficulty question_count fuel
        (qs ++ _generate_fallback_questions topic 1 difficulty)
    else qs

/-- `QuizAIService._parse_questions_from_response(...)`: the line scan, the trailing
`if current_question and len(questions_data) < question_count` append, the fallback
padding loop, and the final `[:question_count]` truncation. -/
def _parse_questions_from_response (ai_response topic difficulty : String)
    (question_count : Nat) (question_types : List String) : List QuizQuestion :=
  let scanned := parseScan topic difficulty question_count question_types
    (pySplit ai_response '\n') [] none 0
  let withLast := match scanned.2 with
    | some q => if scanned.1.length < question_count then scanned.1 ++ [q] else scanned.1
    | none => scanned.1
  (fillQuestions topic difficulty question_count question_count withLast).take question_count

/-- The try-block of `QuizAIService.generate_quiz_questions`. -/
def quizBody (env : Nat → PostResult) (topic difficulty : String) (question_count : Nat)
    (question_types : List String) : Except PyExn (List QuizQuestion) :=
  match (call_huggingface_api env 3 1).result with
  | .error e => .error e
  | .ok none => .error .generic
  | .ok (some s) =>
    if s ≠ "" then
      .ok (_parse_questions_from_response s topic difficulty question_count question_types)
    else .error .generic

/-- `QuizAIService.generate_quiz_questions(topic, difficulty, question_count,
question_types)`: try/except with `_generate_fallback_questions` as the handler. -/
def generate_quiz_questions (env : Nat → PostResult) (topic difficulty : String)
    (question_count : Nat) (question_types : List String) : List QuizQuestion :=
  match quizBody env topic difficulty question_count question_types with
  | .ok qs => qs
  | .error _ => _generate_fallback_questions topic question_count difficulty

/-- The case-insensitive, whitespace-stripped exact match fallback used twice in
`_evaluate_short_answer`. -/
def fallback_string_match (user_answer : String) (correct_answers : List String) : Bool :=
  correct_answers.any fun c => pyStrip (pyLower user_answer) = pyStrip (pyLower c)

/-- `QuizAIService._evaluate_short_answer(user_answer, correct_answers)`: if the model
call raises, degrade to string matching; if the response is truthy and contains
"correct", return whether it does not contain "incorrect"; otherwise fall back to
string matching. -/
def _evaluate_short_answer (env : Nat → PostResult) (user_answer : String)
    (correct_answers : List String) : Bool :=
  match (call_huggingface_api env 3 1).result with
  | .error _ => fallback_string_match user_answer correct_answers
  | .ok none => fallback_string_match user_answer correct_answers
  | .ok (some s) =>
    if s ≠ "" && strContains (pyLower s) "correct" then
      !strContains (pyLower s) "incorrect"
    else fallback_string_match user_answer correct_answers

/-! ## Claim C7: short-answer grading -/

/-- An endpoint environment whose first attempt succeeds with generated text
containing the verdict word "correct". -/
def envCorrect : Nat → PostResult := fun _ => .resp 200 (.obj (some "correct"))

/-- Claim C7: when the model call succeeds with a response containing "correct", the
verdict is judged correct exactly when the response does not also contain "incorrect";
when the model call raises an exception, grading degrades to case-insensitive,
whitespace-stripped exact string matching; in particular user answer "Paris" against
correct_answers ["paris"] under a raising model call is graded correct. -/
theorem C7_short_answer_grading (env : Nat → PostResult) (user_answer : String)
    (correct_answers : List String) (s : String) (e : PyExn) :
    ((call_huggingface_api env 3 1).result = .ok (some s) → s ≠ "" →
      strContains (pyLower s) "correct" = true →
      _evaluate_short_answer env user_answer correct_answers
        = !strContains (pyLower s) "incorrect") ∧
    ((call_huggingface_api env 3 1).result = .error e →
      _evaluate_short_answer env user_answer correct_answers
        = fallback_string_match user_answer correct_answers) ∧
    _evaluate_short_answer envExn "Paris" ["paris"] = true := by
  refine ⟨?_, ?_, by decide⟩
  · intro h hs hc
    unfold _evaluate_short_answer
    rw [h]
    simp [hs, hc]
  · intro h
    unfold _evaluate_short_answer
    rw [h]

theorem C7_short_answer_grading_witness :
    (call_huggingface_api envCorrect 3 1).result = .ok (some "correct") ∧
    "correct" ≠ "" ∧ strContains (pyLower "correct") "correct" = true ∧
    _evaluate_short_answer envCorrect "x" ["y"]
      = !strContains (pyLower "correct") "incorrect" ∧
    _evaluate_short_answer envExn "Paris" ["paris"] = true := by
  refine ⟨rfl, by decide, by decide, ?_, ?_⟩
  · exact (C7_short_answer_grading envCorrect "x" ["y"] "correct" .netExn).1
      rfl (by decide) (by decide)
  · exact (C7_short_answer_grading envCorrect "x" ["y"] "correct" .netExn).2.2

/-! ## Claim C10: question counts of the quiz generator -/

theorem fallback_questions_length (topic difficulty : String) (question_count : Nat) :
    (_generate_fallback_questions topic question_count difficulty).length
      = min question_count 3 := by
  simp [_generate_fallback_questions]

theorem fillQuestions_length (topic difficulty : String) (question_count : Nat) :
    ∀ (fuel : Nat) (qs : List QuizQuestion), question_count ≤ qs.length + fuel →
      question_count ≤ (fillQuestions topic difficulty question_count fuel qs).length := by
  intro fuel
  induction fuel with
  | zero => intro qs h; simpa [fillQuestions] using h
  | succ n ih =>
    intro qs h
    rw [fillQuestions]
    split
    · apply ih
      have hfb : (_generate_fallback_questions topic 1 difficulty).length = 1 := by
        simp [_generate_fallback_questions]
      rw [List.length_append, hfb]
      omega
    · next hge => omega

theorem parse_questions_length (ai_response topic difficulty : String)
    (question_count : Nat) (question_types : List String) :
    (_parse_questions_from_response ai_response topic difficulty question_count
      question_types).length = question_count := by
  simp only [_parse_questions_from_response]
  rw [List.length_take]
  exact Nat.min_eq_left
    (fillQuestions_length topic difficulty question_count question_count _ (by omega))

/-- An endpoint environment whose first attempt succeeds with a single long
question-shaped line of generated text. -/
def envQuestion : Nat → PostResult :=
  fun _ => .resp 200 (.obj (some "Is this a sufficiently long question about math?"))

/-- Claim C10: the quiz fallback generator returns exactly `min(question_count, 3)`
questions; when the inference client fails (exception or failure sentinel),
`generate_quiz_questions` returns `min(question_count, 3)` questions; on the
successful-parse path it pads with fallback questions and truncates, returning exactly
`question_count` questions. -/
theorem C10_question_counts (env : Nat → PostResult) (topic difficulty : String)
    (question_count : Nat) (question_types : List String) (s : String) (e : PyExn) :
    (_generate_fallback_questions topic question_count difficulty).length
        = min question_count 3 ∧
    ((call_huggingface_api env 3 1).result = .error e →
      (generate_quiz_questions env topic difficulty question_count question_types).length
        = min question_count 3) ∧
    ((call_huggingface_api env 3 1).result = .ok none →
      (generate_quiz_questions env topic difficulty question_count question_types).length
        = min question_count 3) ∧
    ((call_huggingface_api env 3 1).result = .ok (some s) → s ≠ "" →
      (generate_quiz_questions env topic difficulty question_count question_types).length
        = question_count) := by
  refine ⟨fallback_questions_length topic difficulty question_count, ?_, ?_, ?_⟩
  · intro h
    unfold generate_quiz_questions quizBody
    rw [h]
    exact fallback_questions_length topic difficulty question_count
  · intro h
    unfold generate_quiz_questions quizBody
    rw [h]
    exact fallback_questions_length topic difficulty question_count
  · intro h hs
    unfold generate_quiz_questions quizBody
    rw [h]
    simp [hs, parse_questions_length]

theorem C10_question_counts_witness :
    (_generate_fallback_questions "Math" 5 "easy").length = min 5 3 ∧
    (call_huggingface_api envExn 3 1).result = .error .netExn ∧
    (generate_quiz_questions envExn "Math" "easy" 5 ["multiple_choice"]).length = min 5 3 ∧
    (call_huggingface_api envQuestion 3 1).result
      = .ok (some "Is this a sufficiently long question about math?") ∧
    (generate_quiz_questions envQuestion "Math" "easy" 5 ["multiple_choice"]).length = 5 := by
  refine ⟨?_, rfl, ?_, rfl, ?_⟩
  · exact (C10_question_counts envExn "Math" "easy" 5 ["multiple_choice"] "" .netExn).1
  · exact (C10_question_counts envExn "Math" "easy" 5 ["multiple_choice"] "" .netExn).2.1 rfl
  · exact (C10_question_counts envQuestion "Math" "easy" 5 ["multiple_choice"]
      "Is this a sufficiently long question about math?" .netExn).2.2.2 rfl (by decide)

/-! ## Roadmaps module (roadmaps/ai_service.py): Claim C8 -/

/-- The two milestone fields read by `update_roadmap_progress`. -/
structure Milestone where
  status : String
  progress_percentage : Nat
deriving DecidableEq, Repr

/-- The accumulation loop of `update_roadmap_progress`:
`progress += 100` for completed milestones, `progress += milestone.progress_percentage`
for in-progress ones, nothing otherwise. -/
def roadmap_progress_total : List Milestone → Nat
  | [] => 0
  | m :: rest =>
    (if m.status = "completed" then 100
     else if m.status = "in_progress" then m.progress_percentage
     else 0) + roadmap_progress_total rest

/-- The pure fields written back by `update_roadmap_progress` (the AI-generated
`insights` text is produced by a separate inference call and is not modelled). -/
structure RoadmapProgress where
  overall_progress : Nat
  completed_milestones : Nat
  total_milestones : Nat
  status_completed : Bool
deriving DecidableEq, Repr

/-- `RoadmapAIService.update_roadmap_progress(roadmap)`: `None` models the early
`return roadmap` when the roadmap has no milestones; `int(progress / total)` truncates
the non-negative quotient, which on naturals is `Nat` division. -/
def update_roadmap_progress (milestones : List Milestone) : Option RoadmapProgress :=
  if milestones.length = 0 then none
  else
    let overall := roadmap_progress_total milestones / milestones.length
    some { overall_progress := overall
           completed_milestones := (milestones.filter fun m => m.status = "completed").length
           total_milestones := milestones.length
           status_completed := overall = 100 }

/-- The spec's description of one milestone's contribution: 100 if completed, its
`progress_percentage` if in progress, 0 otherwise. -/
def specMilestoneContrib (m : Milestone) : Nat :=
  if m.status = "completed" then 100
  else if m.status = "in_progress" then m.progress_percentage
  else 0

theorem roadmap_progress_total_eq_sum (ms : List Milestone) :
    roadmap_progress_total ms = (ms.map specMilestoneContrib).sum := by
  induction ms with
  | nil => rfl
  | cons m rest ih => simp [roadmap_progress_total, specMilestoneContrib, ih]

/-- Claim C8: the overall roadmap progress is the truncated integer mean of the
milestone contributions (100 if completed, `progress_percentage` if in progress,
0 otherwise); for 2 completed, 1 in-progress at 50 and 1 not-started milestone it is
`int(250 / 4) = 62` — truncation, not rounding. -/
theorem C8_roadmap_progress_truncated_mean (milestones : List Milestone)
    (h : milestones ≠ []) :
    (update_roadmap_progress milestones).map (fun r => r.overall_progress)
        = some ((milestones.map specMilestoneContrib).sum / milestones.length) ∧
    (update_roadmap_progress
        [⟨"completed", 100⟩, ⟨"completed", 100⟩, ⟨"in_progress", 50⟩,
         ⟨"not_started", 0⟩]).map (fun r => r.overall_progress) = some 62 := by
  refine ⟨?_, by decide⟩
  simp only [update_roadmap_progress]
  rw [if_neg (by simp [h])]
  simp [roadmap_progress_total_eq_sum]

theorem C8_roadmap_progress_truncated_mean_witness :
    ([⟨"completed", 100⟩, ⟨"completed", 100⟩, ⟨"in_progress", 50⟩,
        (⟨"not_started", 0⟩ : Milestone)] ≠ ([] : List Milestone)) ∧
    (update_roadmap_progress
        [⟨"completed", 100⟩, ⟨"completed", 100⟩, ⟨"in_progress", 50⟩,
         ⟨"not_started", 0⟩]).map (fun r => r.overall_progress) = some 62 := by
  refine ⟨by decide, ?_⟩
  exact (C8_roadmap_progress_truncated_mean
    [⟨"completed", 100⟩, ⟨"completed", 100⟩, ⟨"in_progress", 50⟩, ⟨"not_started", 0⟩]
    (by decide)).2
